import Mathlib

/-!
Verification of the pycz2 gateway (Carrier ComfortZone II HVAC bridge).

Shallow embedding of the core subsystems of the repository:
* `core/frame.py` — CRC-16/ARC, `build_message`, `FrameStruct` / `FrameTestStruct`;
* `core/client.py` — `get_frame` buffer scanning loop and
  `_parse_status_from_cache` status decoding;
* `cache.py` — `CacheMeta.is_stale`, `StateCache.update`,
  `StateCache.set_connection_status`, `StateCache.clear`, `StateCache.get`;
* `core/models.py` — `ZoneTemperatureArgs` validation.

Machine integers are modelled as `Nat` (bytes, registers) or `Int`
(temperatures, timestamps); byte sequences as `List Nat`; fallible parsing as
`Option`; the asynchronous read loop as a function over the finite list of
chunks the transport returns.
-/

namespace Cz2

/-! ### CRC-16/ARC (`core/frame.py`)

The `crc` library is configured as `Configuration(16, 0x8005, 0x0000, 0x0000,
True, True)`: polynomial 0x8005, zero init, zero xor-out, reflected input and
output.  The standard byte-wise implementation of such a reflected CRC keeps a
16-bit register, xors each input byte into the low bits and shifts right eight
times with the reflected polynomial 0xA001. -/

/-- One bit step of the reflected CRC-16/ARC: shift right, conditionally xor
the reflected polynomial 0xA001. -/
def crcStepBit (r : Nat) : Nat :=
  if r % 2 = 1 then (r / 2) ^^^ 0xA001 else r / 2

/-- `n` bit steps. -/
def crcBits : Nat → Nat → Nat
  | 0, r => r
  | n + 1, r => crcBits n (crcStepBit r)

/-- Process one input byte: xor into the register, then eight bit steps. -/
def crcStepByte (r b : Nat) : Nat := crcBits 8 (r ^^^ b)

/-- `Crc16Ccitt` of `core/frame.py` (despite its name it is CRC-16/ARC):
fold the byte steps over the data starting from register 0. -/
def crc16 (data : List Nat) : Nat := data.foldl crcStepByte 0

/-! ### Frames (`core/frame.py`) -/

/-- The `Function` enum of `core/constants.py`. -/
inductive Function where
  | reply
  | read
  | write
  | error
deriving DecidableEq, Repr

/-- Numeric code of each function (`reply=0x06, read=0x0B, write=0x0C,
error=0x15`). -/
def functionCode : Function → Nat
  | .reply => 0x06
  | .read => 0x0B
  | .write => 0x0C
  | .error => 0x15

/-- Decoding a function byte: `construct`'s `Enum(Byte, ..., default=error)`
maps the four known codes to their enumerant and everything else to the
default `error`. -/
def decodeFunction (b : Nat) : Function :=
  if b = 0x06 then .reply
  else if b = 0x0B then .read
  else if b = 0x0C then .write
  else .error

/-- A parsed frame (`FrameStruct` of `core/frame.py`). -/
structure Frame where
  destination : Nat
  source : Nat
  length : Nat
  function : Function
  data : List Nat
  checksum : Nat
deriving DecidableEq, Repr

/-- `build_message(destination, source, function, data)`: header
`[dst, 0, src, 0, len(data), 0, 0, func]`, then the data, then the CRC of
header+data appended little-endian (low byte first). -/
def build_message (destination source : Nat) (function : Function)
    (data : List Nat) : List Nat :=
  let payload :=
    [destination, 0, source, 0, data.length, 0, 0, functionCode function] ++ data
  let checksum := crc16 payload
  payload ++ [checksum % 256, checksum / 256]

/-- `FrameStruct.parse`: fixed header with zero `Const` bytes (a nonzero
`Const` byte raises `ConstError`, modelled as `none`), a `length`-byte data
array, and a big-endian 16-bit checksum field.  Returns `none` when the input
is too short (`StreamError`). -/
def parse_frame (bs : List Nat) : Option Frame :=
  match bs with
  | destination :: 0 :: source :: 0 :: length :: 0 :: 0 :: func :: rest =>
    let data := rest.take length
    if data.length = length then
      match rest.drop length with
      | c1 :: c2 :: _ =>
        some ⟨destination, source, length, decodeFunction func, data,
          256 * c1 + c2⟩
      | _ => none
    else none
  | _ => none

/-- `FrameTestStruct` applied to the buffer suffix starting at one scan
offset: peek the length byte at index 4, peek the `length + 10`-byte window
and check `length > 0` and CRC = 0 over it.  Any failure (missing length
byte, short window) makes the offset invalid, matching the
`except Exception: continue` handling in `get_frame`. -/
def test_offset (bs : List Nat) : Bool :=
  match bs.get? 4 with
  | none => false
  | some length =>
    decide (0 < length) && decide (length + 10 ≤ bs.length)
      && decide (crc16 (bs.take (length + 10)) = 0)

/-! ### Buffer scanning (`get_frame` of `core/client.py`)

`get_frame` keeps an accumulator `self._buffer`.  Each pass tries every
offset `0 .. len(buffer) - MIN_MESSAGE_SIZE` in order; the first offset whose
`FrameTestStruct` is valid and whose `FrameStruct` parse succeeds yields the
frame, and the accumulator is cut after the `length + 10`-byte window; a
`ConstError`/`StreamError` at a valid-CRC offset is caught and scanning
continues.  The scan of one buffer state is the pure function `scan`. -/

/-- `PROTOCOL_SIZE + 1` from `core/constants.py`. -/
def MIN_MESSAGE_SIZE : Nat := 11

/-- `PROTOCOL_SIZE + 255` from `core/constants.py`. -/
def MAX_MESSAGE_SIZE : Nat := 265

/-- The offset loop of `get_frame`, scanning `buffer` from absolute offset
`offset`, with `fuel` offsets still to try. -/
def scan_go (buffer : List Nat) : Nat → Nat → Option (Frame × List Nat)
  | _, 0 => none
  | offset, fuel + 1 =>
    let suffix := buffer.drop offset
    if test_offset suffix then
      match suffix.get? 4 with
      | some length =>
        match parse_frame (suffix.take (length + 10)) with
        | some frame => some (frame, buffer.drop (offset + (length + 10)))
        | none => scan_go buffer (offset + 1) fuel
      | none => scan_go buffer (offset + 1) fuel
    else scan_go buffer (offset + 1) fuel

/-- One full scan pass over the accumulator: offsets
`range(len(buffer) - MIN_MESSAGE_SIZE + 1)`; returns the first parsed frame
together with the new accumulator contents. -/
def scan (buffer : List Nat) : Option (Frame × List Nat) :=
  if MIN_MESSAGE_SIZE ≤ buffer.length then
    scan_go buffer 0 (buffer.length - MIN_MESSAGE_SIZE + 1)
  else none

/-- Outcome of the modelled `get_frame` loop. -/
inductive GetFrameError where
  /-- `ConnectionAbortedError("Too many consecutive empty reads")`. -/
  | connectionAborted
  /-- The modelled transport ran out of chunks while the loop wanted more
  data (the real coroutine would keep waiting). -/
  | outOfReads
deriving DecidableEq, Repr

/-- The `get_frame` loop.  `reads` is the finite list of chunks the transport
returns (an empty chunk models a 5 s read timeout returning zero bytes);
`failures` is `consecutive_failures`.  Each iteration follows
`core/client.py`: with a short buffer it reads; otherwise it trims an
oversized buffer to the trailing `MAX_MESSAGE_SIZE` bytes, scans, and on
failure reads.  An empty read bumps `failures` and aborts as soon as the
counter exceeds `max_failures = 50`; a nonempty read resets it. -/
def get_frame_go : List (List Nat) → List Nat → Nat →
    Except GetFrameError (Frame × List Nat)
  | reads, buffer, failures =>
    if buffer.length < MIN_MESSAGE_SIZE then
      match reads with
      | [] => .error .outOfReads
      | chunk :: rest =>
        if chunk.isEmpty then
          if failures + 1 > 50 then .error .connectionAborted
          else get_frame_go rest (buffer ++ chunk) (failures + 1)
        else get_frame_go rest (buffer ++ chunk) 0
    else
      let buffer1 :=
        if buffer.length > 10 * MAX_MESSAGE_SIZE then
          buffer.drop (buffer.length - MAX_MESSAGE_SIZE)
        else buffer
      match scan buffer1 with
      | some result => .ok result
      | none =>
        match reads with
        | [] => .error .outOfReads
        | chunk :: rest =>
          if chunk.isEmpty then
            if failures + 1 > 50 then .error .connectionAborted
            else get_frame_go rest (buffer1 ++ chunk) (failures + 1)
          else get_frame_go rest (buffer1 ++ chunk) 0

/-! ### Status decoding (`_parse_status_from_cache` of `core/client.py`) -/

/-- `SystemMode` of `core/constants.py`. -/
inductive SystemMode where
  | HEAT
  | COOL
  | AUTO
  | EHEAT
  | OFF
deriving DecidableEq, Repr

/-- `FanMode` of `core/constants.py`. -/
inductive FanMode where
  | AUTO
  | ON
deriving DecidableEq, Repr

/-- `SYSTEM_MODE_MAP.get(v, SystemMode.OFF)` (and `EFFECTIVE_MODE_MAP`, which
is the same dict). -/
def system_mode_map (v : Nat) : SystemMode :=
  match v with
  | 0 => .HEAT
  | 1 => .COOL
  | 2 => .AUTO
  | 3 => .EHEAT
  | 4 => .OFF
  | _ => .OFF

/-- `FAN_MODE_MAP.get(v, FanMode.AUTO)`. -/
def fan_mode_map (v : Nat) : FanMode :=
  match v with
  | 0 => .AUTO
  | 1 => .ON
  | _ => .AUTO

/-- `WEEKDAY_MAP.get(day, "Unk")`. -/
def weekday_map (day : Nat) : String :=
  match day with
  | 0 => "Sun"
  | 1 => "Mon"
  | 2 => "Tue"
  | 3 => "Wed"
  | 4 => "Thu"
  | 5 => "Fri"
  | 6 => "Sat"
  | _ => "Unk"

/-- Python's `f"{n:02d}"` for a nonnegative value. -/
def pad2 (n : Nat) : String :=
  if n < 10 then "0" ++ toString n else toString n

/-- `ZoneStatus` of `core/models.py`. -/
structure ZoneStatus where
  zone_id : Nat
  temperature : Nat
  damper_position : Nat
  cool_setpoint : Nat
  heat_setpoint : Nat
  temporary : Bool
  hold : Bool
  out : Bool
deriving DecidableEq, Repr

/-- `SystemStatus` of `core/models.py`. -/
structure SystemStatus where
  system_time : String
  system_mode : SystemMode
  effective_mode : SystemMode
  fan_mode : FanMode
  fan_state : String
  active_state : String
  all_mode : Bool
  outside_temp : Int
  air_handler_temp : Nat
  zone1_humidity : Nat
  compressor_stage_1 : Bool
  compressor_stage_2 : Bool
  aux_heat_stage_1 : Bool
  aux_heat_stage_2 : Bool
  humidify : Bool
  dehumidify : Bool
  reversing_valve : Bool
  raw : Option String
  zones : List ZoneStatus
deriving DecidableEq, Repr

/-- The nine rows `_parse_status_from_cache` reads from `data_cache`.  Python
uses `data.get("T.R", [])`, so an absent key behaves exactly like the empty
list and the dictionary is modelled by its nine relevant entries. -/
structure RowData where
  r9_3 : List Nat
  r9_4 : List Nat
  r9_5 : List Nat
  r1_9 : List Nat
  r1_12 : List Nat
  r1_16 : List Nat
  r1_17 : List Nat
  r1_18 : List Nat
  r1_24 : List Nat
deriving DecidableEq, Repr

/-- `safe_get(arr, index, default)`: bounds-checked indexing returning the
default out of range. -/
def safe_get (arr : List Nat) (index : Nat) (default : Nat) : Nat :=
  if h : index < arr.length then arr.get ⟨index, h⟩ else default

/-- `decode_temp(high, low)`: 16-bit combine, divide by 16, sign-correct
values whose high byte exceeds 0x80. -/
def decode_temp (high low : Nat) : Int :=
  let val := (high <<< 8) ||| low
  let temp := val / 16
  if high ≤ 0x80 then (temp : Int) else (temp : Int) - 4096

/-- The time fields of row 1.18: `t_data[3], t_data[4], t_data[5]` guarded by
`len(t_data) < 6` (which falls back to zeros).  The unguarded indexings are
modelled with `List.get?` so that an out-of-range access (an `IndexError` in
Python) is `none`. -/
def decode_time_fields (t_data : List Nat) : Option (Nat × Nat × Nat) :=
  if t_data.length < 6 then some (0, 0, 0)
  else
    match t_data.get? 3, t_data.get? 4, t_data.get? 5 with
    | some day, some hour, some minute => some (day, hour, minute)
    | _, _, _ => none

/-- One zone record of the zone loop of `_parse_status_from_cache` (index
`i`, `zone_id = i + 1`).  `damper_position` models
`round(damper_raw / 15.0 * 100)`: the exact value `damper_raw * 20 / 3` never
has fractional part 1/2, so rounding half-up `(40 * raw + 3) / 6` agrees with
Python's `round`. -/
def mkZone (data : RowData) (i : Nat) : ZoneStatus :=
  let damper_raw := safe_get data.r9_4 (i + 3) 0
  { zone_id := i + 1
    temperature := safe_get data.r1_24 (i + 3) 0
    damper_position := if 0 < damper_raw then (40 * damper_raw + 3) / 6 else 0
    cool_setpoint := safe_get data.r1_16 (i + 3) 0
    heat_setpoint := safe_get data.r1_16 (i + 11) 0
    temporary := decide (safe_get data.r1_12 9 0 &&& (1 <<< i) ≠ 0)
    hold := decide (safe_get data.r1_12 10 0 &&& (1 <<< i) ≠ 0)
    out := decide (safe_get data.r1_12 12 0 &&& (1 <<< i) ≠ 0) }

/-- Copy the all-mode template fields onto another zone (the body of the
propagation loop). -/
def copyTemplate (template zone : ZoneStatus) : ZoneStatus :=
  { zone with
    cool_setpoint := template.cool_setpoint
    heat_setpoint := template.heat_setpoint
    temporary := template.temporary
    hold := template.hold
    out := template.out }

/-- The all-mode propagation step: when `all_mode_source` is truthy and names
a zone `1 ≤ src ≤ len(zones)`, every zone except the template keeps its
identity fields but receives the template's setpoints and flags.  The
template lookup `status.zones[all_mode_source - 1]` is guarded by that
condition, so the `List.get?` failure case is unreachable. -/
def propagate (zones : List ZoneStatus) (all_mode_source : Nat) :
    Option (List ZoneStatus) :=
  if all_mode_source ≠ 0 ∧ 1 ≤ all_mode_source ∧ all_mode_source ≤ zones.length then
    match zones.get? (all_mode_source - 1) with
    | some template =>
      some (zones.map fun zone =>
        if zone.zone_id = template.zone_id then zone else copyTemplate template zone)
    | none => none
  else some zones

/-- `_parse_status_from_cache(data, raw_blob)` for a client configured with
`zone_count` zones.  Unguarded list indexings are modelled with `List.get?`
(`none` = a Python `IndexError`); all other accesses go through `safe_get`
exactly as in the source. -/
def parse_status (zone_count : Nat) (data : RowData) (raw_blob : Option String) :
    Option SystemStatus :=
  match decode_time_fields data.r1_18 with
  | none => none
  | some (day, hour, minute) =>
    let ampm := if 12 ≤ hour then "pm" else "am"
    let display_hour := if hour = 0 then 12 else if 12 < hour then hour - 12 else hour
    let system_time :=
      weekday_map day ++ " " ++ pad2 display_hour ++ ":" ++ pad2 minute ++ ampm
    let s_mode := safe_get data.r1_12 4 0
    let e_mode := safe_get data.r1_12 6 0
    let fan_mode_raw := (safe_get data.r1_17 3 0 &&& 0x04) >>> 2
    let data_9_5_byte := safe_get data.r9_5 3 0
    let fan_on := decide (data_9_5_byte &&& 0x20 ≠ 0)
    let compressor_stage_1 := decide (data_9_5_byte &&& 0x01 ≠ 0)
    let compressor_stage_2 := decide (data_9_5_byte &&& 0x02 ≠ 0)
    let aux_heat_stage_1 := decide (data_9_5_byte &&& 0x04 ≠ 0)
    let aux_heat_stage_2 := decide (data_9_5_byte &&& 0x08 ≠ 0)
    let humidify := decide (data_9_5_byte &&& 0x40 ≠ 0)
    let dehumidify := decide (data_9_5_byte &&& 0x80 ≠ 0)
    let reversing_valve := decide (data_9_5_byte &&& 0x10 ≠ 0)
    let compressor_on := compressor_stage_1 || compressor_stage_2
    let aux_heat_on := aux_heat_stage_1 || aux_heat_stage_2
    let effective_mode_val := system_mode_map e_mode
    let heatish := effective_mode_val = SystemMode.HEAT ∨ effective_mode_val = SystemMode.EHEAT
    let active_state :=
      (if compressor_on then (if heatish then "Heat On" else "Cool On")
       else (if heatish then "Heat Off" else "Cool Off"))
        ++ (if aux_heat_on then " [AUX]" else "")
    let raw_out_high := safe_get data.r9_3 4 0
    let raw_out_low := safe_get data.r9_3 5 0
    let two_byte_temp := decode_temp raw_out_high raw_out_low
    let outside_temp_val :=
      if raw_out_high = 0 ∧ raw_out_low = 0 then (safe_get data.r9_3 7 0 : Int)
      else two_byte_temp
    let all_mode_source := safe_get data.r1_12 15 0
    let zones0 := (List.range zone_count).map (mkZone data)
    match propagate zones0 all_mode_source with
    | none => none
    | some zones1 =>
      some
        { system_time := system_time
          system_mode := system_mode_map s_mode
          effective_mode := effective_mode_val
          fan_mode := fan_mode_map fan_mode_raw
          fan_state := if fan_on then "On" else "Off"
          active_state := active_state
          all_mode := decide (all_mode_source ≠ 0)
          outside_temp := outside_temp_val
          air_handler_temp := safe_get data.r9_3 6 0
          zone1_humidity := safe_get data.r1_9 4 0
          compressor_stage_1 := compressor_stage_1
          compressor_stage_2 := compressor_stage_2
          aux_heat_stage_1 := aux_heat_stage_1
          aux_heat_stage_2 := aux_heat_stage_2
          humidify := humidify
          dehumidify := dehumidify
          reversing_valve := reversing_valve
          raw := raw_blob
          zones := zones1 }

/-! ### State cache (`cache.py`)

Timestamps (`time.time()` and the stored `last_update_ts`, `stale_after_sec`)
are modelled as `Int` epoch seconds; the current time is passed explicitly to
the operations that read the clock. -/

/-- `CacheMeta` of `cache.py`. -/
structure CacheMeta where
  connected : Bool
  last_update_ts : Int
  stale_after_sec : Int
  source : String
  version : Nat
  error : Option String
deriving DecidableEq, Repr

/-- The fresh `CacheMeta(stale_after_sec=...)` built by `__init__` and
`clear`: dataclass defaults `connected=False, last_update_ts=0,
source="init", version=0, error=None`. -/
def initMeta (stale_after_sec : Int) : CacheMeta :=
  { connected := false
    last_update_ts := 0
    stale_after_sec := stale_after_sec
    source := "init"
    version := 0
    error := none }

/-- `CacheMeta.is_stale()` at current time `now`. -/
def CacheMeta.is_stale (m : CacheMeta) (now : Int) : Bool :=
  if m.last_update_ts = 0 ∨ m.connected = false then true
  else decide (now - m.last_update_ts > m.stale_after_sec)

/-- The in-memory state of `StateCache`: `self._status` and `self._meta`
(persistence and fan-out have no effect on this state). -/
structure StateCache where
  status : Option SystemStatus
  meta : CacheMeta
deriving DecidableEq, Repr

/-- `get_empty_status()`. -/
def get_empty_status : SystemStatus :=
  { system_time := "--:--"
    system_mode := .OFF
    effective_mode := .OFF
    fan_mode := .AUTO
    fan_state := "Off"
    active_state := "Idle"
    all_mode := false
    outside_temp := 0
    air_handler_temp := 0
    zone1_humidity := 0
    compressor_stage_1 := false
    compressor_stage_2 := false
    aux_heat_stage_1 := false
    aux_heat_stage_2 := false
    humidify := false
    dehumidify := false
    reversing_valve := false
    raw := none
    zones := [] }

/-- `StateCache.get()`: the stored status, or the empty status when the cache
is unpopulated, together with the metadata. -/
def StateCache.get (c : StateCache) : SystemStatus × CacheMeta :=
  (c.status.getD get_empty_status, c.meta)

/-- `StateCache.update(status, source, error)` at current time `now`:
bump `version`; on a status, store it, set `connected := true` and clear
`error`; otherwise keep the stored status, set `connected := false` and
record `error`; then set `last_update_ts := now` and `source`
(unconditionally, exactly as in the source). -/
def StateCache.update (c : StateCache) (status : Option SystemStatus)
    (source : String) (error : Option String) (now : Int) : StateCache :=
  let meta0 := { c.meta with version := c.meta.version + 1 }
  match status with
  | some s =>
    { status := some s
      meta := { meta0 with
        connected := true
        error := none
        last_update_ts := now
        source := source } }
  | none =>
    { status := c.status
      meta := { meta0 with
        connected := false
        error := error
        last_update_ts := now
        source := source } }

/-- `StateCache.set_connection_status(connected, source, error)`: update the
connection fields and bump `version`, leaving `last_update_ts` and the stored
status untouched. -/
def StateCache.set_connection_status (c : StateCache) (connected : Bool)
    (source : String) (error : Option String) : StateCache :=
  { status := c.status
    meta := { c.meta with
      connected := connected
      source := source
      error := error
      version := c.meta.version + 1 } }

/-- `StateCache.clear()`: drop the status and reset the metadata to
`CacheMeta(stale_after_sec=self.stale_after_sec)`. -/
def StateCache.clear (_c : StateCache) (stale_after_sec : Int) : StateCache :=
  { status := none, meta := initMeta stale_after_sec }

/-! ### Setpoint validation (`backend/src/pycz2/core/models.py`)

`ZoneTemperatureArgs`: pydantic field bounds `45 ≤ heat ≤ 85`,
`64 ≤ cool ≤ 99` on the optional integers, then the `after` model validator
rejecting `heat >= cool - 1` when both are given. -/

/-- Whether a `ZoneTemperatureArgs` body with the given optional `heat` and
`cool` passes validation (field bounds plus the
`validate_setpoint_relationship` validator). -/
def zone_temperature_args_valid (heat cool : Option Int) : Bool :=
  (match heat with
   | none => true
   | some h => decide (45 ≤ h) && decide (h ≤ 85))
  && (match cool with
      | none => true
      | some c => decide (64 ≤ c) && decide (c ≤ 99))
  && (match heat, cool with
      | some h, some c => !decide (h ≥ c - 1)
      | _, _ => true)

/-! ### CRC facts -/

theorem crcStepBit_two_mul (m : Nat) : crcStepBit (2 * m) = m := by
  unfold crcStepBit
  rw [Nat.mul_mod_right]
  simp [Nat.mul_div_cancel_left m (by norm_num : 0 < 2)]

theorem crcBits_two_pow : ∀ n h, crcBits n (2 ^ n * h) = h
  | 0, h => by simp [crcBits]
  | n + 1, h => by
    rw [crcBits, show 2 ^ (n + 1) * h = 2 * (2 ^ n * h) by ring, crcStepBit_two_mul]
    exact crcBits_two_pow n h

theorem crcStepBit_zero : crcStepBit 0 = 0 := by
  simp [crcStepBit]

theorem crcBits_zero : ∀ n, crcBits n 0 = 0
  | 0 => rfl
  | n + 1 => by rw [crcBits, crcStepBit_zero]; exact crcBits_zero n

/-- Xoring the low byte out of a split value leaves the high part. -/
theorem xor_low_byte (h l : Nat) (hl : l < 2 ^ 8) :
    (2 ^ 8 * h + l) ^^^ l = 2 ^ 8 * h := by
  apply Nat.eq_of_testBit_eq
  intro j
  rw [Nat.testBit_xor, Nat.testBit_mul_pow_two_add _ hl, Nat.testBit_mul_pow_two]
  by_cases hj : j < 8
  · simp [hj, Nat.not_le_of_lt hj]
  · have hlj : l < 2 ^ j :=
      lt_of_lt_of_le hl (Nat.pow_le_pow_right (by norm_num) (by omega))
    simp [hj, Nat.le_of_not_lt hj, Nat.testBit_lt_two_pow hlj]

/-- Feeding the current CRC register back into the CRC (low byte first)
drives the register to zero: the defining property of appending the
little-endian CRC tail. -/
theorem crc_finalize (c : Nat) :
    crcStepByte (crcStepByte c (c % 256)) (c / 256) = 0 := by
  have hlow : c % 256 < 2 ^ 8 := Nat.mod_lt _ (by norm_num)
  have hx : c ^^^ c % 256 = 2 ^ 8 * (c / 256) := by
    have hsplit : c = 2 ^ 8 * (c / 256) + c % 256 := by
      have := Nat.div_add_mod c 256
      omega
    nth_rewrite 1 [hsplit]
    exact xor_low_byte _ _ hlow
  unfold crcStepByte
  rw [hx, crcBits_two_pow, Nat.xor_self, crcBits_zero]

/-- Recomputing the CRC over a payload extended by its own CRC, little-endian,
yields zero. -/
theorem crc16_append_tail (payload : List Nat) :
    crc16 (payload ++ [crc16 payload % 256, crc16 payload / 256]) = 0 := by
  unfold crc16
  rw [List.foldl_append]
  exact crc_finalize _

theorem crc16_build_message (destination source : Nat) (function : Function)
    (data : List Nat) :
    crc16 (build_message destination source function data) = 0 := by
  unfold build_message
  exact crc16_append_tail _

/-! ### Frame round trip -/

theorem decodeFunction_functionCode (f : Function) :
    decodeFunction (functionCode f) = f := by
  cases f <;> rfl

/-- Parsing the bytes produced by `build_message` recovers every field. -/
theorem parse_frame_build_message (destination source : Nat)
    (function : Function) (data : List Nat) :
    parse_frame (build_message destination source function data) =
      some
        { destination := destination
          source := source
          length := data.length
          function := function
          data := data
          checksum :=
            256 * (crc16 ([destination, 0, source, 0, data.length, 0, 0,
              functionCode function] ++ data) % 256) +
              crc16 ([destination, 0, source, 0, data.length, 0, 0,
                functionCode function] ++ data) / 256 } := by
  simp only [build_message]
  simp only [List.cons_append, List.nil_append]
  simp only [parse_frame]
  rw [List.take_left, List.drop_left]
  simp [decodeFunction_functionCode]

theorem build_message_length (destination source : Nat) (function : Function)
    (data : List Nat) :
    (build_message destination source function data).length = data.length + 10 := by
  simp [build_message]

theorem build_message_get4 (destination source : Nat) (function : Function)
    (data noise : List Nat) :
    (build_message destination source function data ++ noise).get? 4 =
      some data.length := by
  simp [build_message]

theorem test_offset_build_message (destination source : Nat)
    (function : Function) (data noise : List Nat) (hpos : 0 < data.length) :
    test_offset (build_message destination source function data ++ noise) = true := by
  have hlen := build_message_length destination source function data
  unfold test_offset
  rw [build_message_get4]
  have htake : (build_message destination source function data ++ noise).take
      (data.length + 10) = build_message destination source function data := by
    rw [← hlen, List.take_left]
  dsimp only
  rw [htake]
  simp [crc16_build_message, List.length_append, hlen, hpos]

/-- C1: for every frame built by the codec (destination and source bytes,
a known function code, up to 255 data bytes), parsing the produced byte
sequence with the frame parser yields the same destination, source, function
and data, and recomputing the CRC-16/ARC checksum over the entire produced
sequence, including the little-endian CRC tail, yields 0. -/
theorem build_message_roundtrip_crc (destination source : Nat)
    (function : Function) (data : List Nat)
    (_hdest : destination < 256) (_hsrc : source < 256)
    (_hlen : data.length ≤ 255) (_hbytes : ∀ b ∈ data, b < 256) :
    (∃ frame, parse_frame (build_message destination source function data) =
        some frame ∧
        frame.destination = destination ∧ frame.source = source ∧
        frame.function = function ∧ frame.data = data) ∧
      crc16 (build_message destination source function data) = 0 :=
  ⟨⟨_, parse_frame_build_message destination source function data,
    rfl, rfl, rfl, rfl⟩,
   crc16_build_message destination source function data⟩

/-- Witness for C1 at the spec's scenario-1 frame
`build(dest=9, src=99, read, [1,16])`. -/
theorem build_message_roundtrip_crc_witness :
    (∃ frame, parse_frame (build_message 9 99 Function.read [1, 16]) =
        some frame ∧
        frame.destination = 9 ∧ frame.source = 99 ∧
        frame.function = Function.read ∧ frame.data = [1, 16]) ∧
      crc16 (build_message 9 99 Function.read [1, 16]) = 0 :=
  build_message_roundtrip_crc 9 99 Function.read [1, 16]
    (by decide) (by decide) (by decide) (by decide)

/-! ### Scanning lemmas -/

theorem scan_go_skip (buffer : List Nat) (offset fuel : Nat)
    (h : test_offset (buffer.drop offset) = false) :
    scan_go buffer offset (fuel + 1) = scan_go buffer (offset + 1) fuel := by
  rw [scan_go]
  simp [h]

theorem scan_go_hit (buffer : List Nat) (offset fuel length : Nat)
    (frame : Frame)
    (ht : test_offset (buffer.drop offset) = true)
    (hlen : (buffer.drop offset).get? 4 = some length)
    (hp : parse_frame ((buffer.drop offset).take (length + 10)) = some frame) :
    scan_go buffer offset (fuel + 1) =
      some (frame, buffer.drop (offset + (length + 10))) := by
  rw [scan_go]
  simp only [List.getElem?_drop, List.get?_eq_getElem?] at hlen
  simp [ht, hlen, hp]

/-- If every offset before `k` fails the frame test and `k` both passes it
and parses, the scan starting at or before `k` yields the frame at `k`. -/
theorem scan_go_first (buffer : List Nat) (k length : Nat) (frame : Frame)
    (ht : test_offset (buffer.drop k) = true)
    (hlen : (buffer.drop k).get? 4 = some length)
    (hp : parse_frame ((buffer.drop k).take (length + 10)) = some frame) :
    ∀ fuel offset, offset ≤ k → k < offset + fuel →
    (∀ j, offset ≤ j → j < k → test_offset (buffer.drop j) = false) →
    scan_go buffer offset fuel = some (frame, buffer.drop (k + (length + 10)))
  | 0, offset, hok, hfuel, _ => by omega
  | fuel + 1, offset, hok, hfuel, hclean => by
    rcases Nat.eq_or_lt_of_le hok with heq | hlt
    · subst heq
      exact scan_go_hit buffer offset fuel length frame ht hlen hp
    · rw [scan_go_skip buffer offset fuel (hclean offset le_rfl hlt)]
      exact scan_go_first buffer k length frame ht hlen hp fuel (offset + 1)
        (by omega) (by omega) (fun j hj1 hj2 => hclean j (by omega) hj2)

/-- C2 (amended): for a valid frame byte sequence (nonempty data, so the
length byte is positive), a noise prefix `P` none of whose offsets passes the
validity test on the assembled buffer, and arbitrary trailing noise, the
scanning parser yields the embedded frame as the first frame and leaves
exactly the trailing noise in the accumulator. -/
theorem scan_finds_embedded_frame (P : List Nat) (destination source : Nat)
    (function : Function) (data noise : List Nat)
    (hpos : 0 < data.length) (_hlen : data.length ≤ 255)
    (_hdest : destination < 256) (_hsrc : source < 256)
    (_hbytes : ∀ b ∈ data, b < 256)
    (hclean : ∀ j, j < P.length →
      test_offset ((P ++ build_message destination source function data ++
        noise).drop j) = false) :
    ∃ frame,
      scan (P ++ build_message destination source function data ++ noise) =
        some (frame, noise) ∧
      frame.destination = destination ∧ frame.source = source ∧
      frame.function = function ∧ frame.data = data := by
  set fb := build_message destination source function data with hfb
  have hfblen : fb.length = data.length + 10 :=
    build_message_length destination source function data
  have hdropP : (P ++ fb ++ noise).drop P.length = fb ++ noise := by
    rw [List.append_assoc]
    exact List.drop_left P (fb ++ noise)
  have ht : test_offset ((P ++ fb ++ noise).drop P.length) = true := by
    rw [hdropP]
    exact test_offset_build_message destination source function data noise hpos
  have hget : ((P ++ fb ++ noise).drop P.length).get? 4 = some data.length := by
    rw [hdropP]
    exact build_message_get4 destination source function data noise
  have htake : ((P ++ fb ++ noise).drop P.length).take (data.length + 10) = fb := by
    rw [hdropP, ← hfblen, List.take_left]
  have hparse : parse_frame (((P ++ fb ++ noise).drop P.length).take
      (data.length + 10)) = some
      { destination := destination, source := source, length := data.length
        function := function, data := data
        checksum := 256 * (crc16 ([destination, 0, source, 0, data.length, 0, 0,
          functionCode function] ++ data) % 256) +
          crc16 ([destination, 0, source, 0, data.length, 0, 0,
            functionCode function] ++ data) / 256 } := by
    rw [htake, hfb]
    exact parse_frame_build_message destination source function data
  have h1 : ((P ++ fb ++ noise).drop P.length).drop (data.length + 10) = noise := by
    rw [hdropP, ← hfblen, List.drop_left]
  have h2 : ((P ++ fb ++ noise).drop P.length).drop (data.length + 10) =
      (P ++ fb ++ noise).drop (P.length + (data.length + 10)) := by
    rw [List.drop_drop]
  have hrest : (P ++ fb ++ noise).drop (P.length + (data.length + 10)) = noise := by
    rw [← h2]
    exact h1
  have hbuflen : (P ++ fb ++ noise).length =
      P.length + (data.length + 10) + noise.length := by
    simp [hfblen]
    omega
  have hscan : scan (P ++ fb ++ noise) = some
      ({ destination := destination, source := source, length := data.length
         function := function, data := data
         checksum := 256 * (crc16 ([destination, 0, source, 0, data.length, 0, 0,
           functionCode function] ++ data) % 256) +
           crc16 ([destination, 0, source, 0, data.length, 0, 0,
             functionCode function] ++ data) / 256 }, noise) := by
    unfold scan
    rw [if_pos (show MIN_MESSAGE_SIZE ≤ (P ++ fb ++ noise).length by
      rw [hbuflen]; unfold MIN_MESSAGE_SIZE; omega)]
    rw [scan_go_first (P ++ fb ++ noise) P.length data.length _ ht hget hparse
      ((P ++ fb ++ noise).length - MIN_MESSAGE_SIZE + 1) 0 (Nat.zero_le _)
      (by rw [hbuflen]; unfold MIN_MESSAGE_SIZE; omega)
      (fun j _ hj => hclean j hj)]
    rw [hrest]
  exact ⟨_, hscan, rfl, rfl, rfl, rfl⟩

/-- Witness for C2 at the spec's scenario-2 input: three zero noise bytes,
the scenario-1 frame, one trailing noise byte. -/
theorem scan_finds_embedded_frame_witness :
    ∃ frame,
      scan ([0, 0, 0] ++ build_message 9 99 Function.read [1, 16] ++ [255]) =
        some (frame, [255]) ∧
      frame.destination = 9 ∧ frame.source = 99 ∧
      frame.function = Function.read ∧ frame.data = [1, 16] :=
  scan_finds_embedded_frame [0, 0, 0] 9 99 Function.read [1, 16] [255]
    (by decide) (by decide) (by decide) (by decide) (by decide) (by decide)

set_option maxRecDepth 10000 in
/-- Counterexample to C2 as stated: with the "noise" prefix chosen to be a
complete valid frame (`build(1, 2, reply, [3])`), the scanner yields that
frame first, not the embedded frame `build(9, 99, read, [1,16])`. -/
theorem scan_prefix_counterexample :
    (scan (build_message 1 2 Function.reply [3] ++
        build_message 9 99 Function.read [1, 16] ++ [])).map
        (fun r => (r.1.destination, r.1.source, r.1.data)) =
      some (1, 2, [3]) ∧
    (1, 2, ([3] : List Nat)) ≠ (9, 99, ([1, 16] : List Nat)) := by
  constructor
  · decide
  · decide

deriving instance DecidableEq for Except

/-- C9 (amended): on a silent transport the `get_frame` loop raises
`ConnectionAbortedError` after 51 consecutive empty reads — the counter must
strictly exceed `max_failures = 50` — provided the accumulator holds no valid
frame and is not large enough to be trimmed. -/
theorem get_frame_aborts_after_51_empty_reads (buffer : List Nat) :
    ∀ (n : Nat) (failures : Nat),
    scan buffer = none → buffer.length ≤ 10 * MAX_MESSAGE_SIZE →
    failures ≤ 50 → 50 < failures + n →
    get_frame_go (List.replicate n []) buffer failures =
      .error .connectionAborted
  | 0, failures, _, _, hf, hcount => by omega
  | n + 1, failures, hscan, hsize, hf, hcount => by
    rw [get_frame_go.eq_def]
    simp only [List.replicate_succ, List.isEmpty_nil, if_true]
    have hnottrim : ¬ buffer.length > 10 * MAX_MESSAGE_SIZE := by omega
    by_cases hb : buffer.length < MIN_MESSAGE_SIZE
    · rw [if_pos hb]
      by_cases habort : failures + 1 > 50
      · simp [habort]
      · simp only [habort, if_false, List.append_nil]
        exact get_frame_aborts_after_51_empty_reads buffer n (failures + 1)
          hscan hsize (by omega) (by omega)
    · rw [if_neg hb]
      simp only [hnottrim, if_false, hscan, List.append_nil]
      by_cases habort : failures + 1 > 50
      · simp [habort]
      · simp only [habort, if_false]
        exact get_frame_aborts_after_51_empty_reads buffer n (failures + 1)
          hscan hsize (by omega) (by omega)

/-- Witness for C9 (amended): 51 consecutive empty reads on an empty
accumulator abort the loop. -/
theorem get_frame_aborts_witness :
    get_frame_go (List.replicate 51 []) [] 0 = .error .connectionAborted :=
  get_frame_aborts_after_51_empty_reads [] 51 0 (by decide) (by decide)
    (by decide) (by decide)

set_option maxRecDepth 10000 in
/-- Counterexample to C9 as stated: after exactly 50 consecutive empty reads
the loop has not aborted — the modelled transport script of 50 empty chunks
is exhausted with the loop still waiting for data, and the outcome is not
`ConnectionAborted`. -/
theorem get_frame_fifty_reads_counterexample :
    get_frame_go (List.replicate 50 []) [] 0 = .error .outOfReads ∧
    (Except.error GetFrameError.outOfReads :
        Except GetFrameError (Frame × List Nat)) ≠
      .error .connectionAborted := by
  constructor
  · decide
  · decide

/-! ### Cache claims -/

/-- C3 (amended): `StateCache.update` always stamps `last_update_ts` with the
current time — also on a failure write (`status = None`), where it
additionally bumps the version and flips `connected` to false. -/
theorem update_always_stamps_time (c : StateCache) (source : String)
    (error : Option String) (now : Int) :
    (c.update none source error now).meta.last_update_ts = now ∧
    (c.update none source error now).meta.version = c.meta.version + 1 ∧
    (c.update none source error now).meta.connected = false := by
  simp [StateCache.update]

/-- Counterexample to C3 as stated: a failure write `update(None, "error",
"boom")` at time 10 against a cache whose `last_update_ts` is 5 moves
`last_update_ts` to 10 instead of preserving it. -/
theorem update_timestamp_counterexample :
    (StateCache.update
        { status := none
          meta := { connected := true, last_update_ts := 5,
                    stale_after_sec := 60, source := "poll", version := 3,
                    error := none } }
        none "error" (some "boom") 10).meta.last_update_ts = 10 ∧
    (10 : Int) ≠ 5 := by
  constructor
  · rfl
  · decide

/-- C4 (amended): `update` and `set_connection_status` strictly increase the
version counter, while `clear` resets the metadata — and with it the version
counter — to its initial value 0. -/
theorem version_counter_behavior (c : StateCache)
    (status : Option SystemStatus) (source : String) (error : Option String)
    (now : Int) (connected : Bool) (stale_after_sec : Int) :
    (c.update status source error now).meta.version > c.meta.version ∧
    (c.set_connection_status connected source error).meta.version >
      c.meta.version ∧
    (c.clear stale_after_sec).meta.version = 0 := by
  refine ⟨?_, ?_, rfl⟩
  · cases status <;> simp [StateCache.update]
  · simp [StateCache.set_connection_status]

/-- Counterexample to C4 as stated: `clear` on a cache at version 3 yields
version 0, which is not strictly greater. -/
theorem clear_version_counterexample :
    ¬ ((StateCache.clear
        { status := none
          meta := { connected := true, last_update_ts := 5,
                    stale_after_sec := 60, source := "poll", version := 3,
                    error := none } }
        60).meta.version >
      ({ connected := true, last_update_ts := 5, stale_after_sec := 60,
         source := "poll", version := 3, error := none } : CacheMeta).version) := by
  decide

/-- C5 (amended): `is_stale` holds exactly when `last_update_ts = 0`, or the
cache is disconnected, or the age exceeds `stale_after_sec`; equivalently
`is_stale` is false iff `last_update_ts ≠ 0` and connected and the age is
within `stale_after_sec` (the spec's restatement omits the
`last_update_ts ≠ 0` conjunct). -/
theorem is_stale_characterization (m : CacheMeta) (now : Int) :
    (m.is_stale now = true ↔
      (m.last_update_ts = 0 ∨ m.connected = false ∨
        now - m.last_update_ts > m.stale_after_sec)) ∧
    (m.is_stale now = false ↔
      (m.last_update_ts ≠ 0 ∧ m.connected = true ∧
        now - m.last_update_ts ≤ m.stale_after_sec)) := by
  unfold CacheMeta.is_stale
  by_cases h1 : m.last_update_ts = 0 <;> cases hc : m.connected <;>
    simp [h1, hc]

/-- Witness for C5 at a concrete metadata value and time. -/
theorem is_stale_characterization_witness :
    (CacheMeta.is_stale
        { connected := true, last_update_ts := 40, stale_after_sec := 60,
          source := "poll", version := 1, error := none } 120 = true ↔
      ((40 : Int) = 0 ∨ true = false ∨ (120 : Int) - 40 > 60)) ∧
    (CacheMeta.is_stale
        { connected := true, last_update_ts := 40, stale_after_sec := 60,
          source := "poll", version := 1, error := none } 120 = false ↔
      ((40 : Int) ≠ 0 ∧ true = true ∧ (120 : Int) - 40 ≤ 60)) :=
  is_stale_characterization
    { connected := true, last_update_ts := 40, stale_after_sec := 60,
      source := "poll", version := 1, error := none } 120

/-- Counterexample to the spec's restatement in C5: with `connected = true`,
`last_update_ts = 0`, `stale_after_sec = 60` and `now = 0`, `is_stale` is
true although `connected ∧ now - last_update_ts ≤ stale_after_sec` holds, so
"`is_stale` is false iff connected and age within bound" fails. -/
theorem is_stale_equivalence_counterexample :
    CacheMeta.is_stale ⟨true, 0, 60, "init", 0, none⟩ 0 = true ∧
    (⟨true, 0, 60, "init", 0, none⟩ : CacheMeta).connected = true ∧
    (0 : Int) - (⟨true, 0, 60, "init", 0, none⟩ : CacheMeta).last_update_ts ≤
      (⟨true, 0, 60, "init", 0, none⟩ : CacheMeta).stale_after_sec := by
  refine ⟨rfl, rfl, ?_⟩
  decide

/-- C6: a failure write (`update` with `status = None` and an error message)
preserves the previously stored snapshot — a subsequent `get` still returns
it — while flipping `connected` to false and populating `error`. -/
theorem update_failure_preserves_snapshot (c : StateCache) (s : SystemStatus)
    (source : String) (message : String) (now : Int)
    (h : c.status = some s) :
    (c.update none source (some message) now).status = some s ∧
    (c.update none source (some message) now).get.1 = s ∧
    (c.update none source (some message) now).meta.connected = false ∧
    (c.update none source (some message) now).meta.error = some message := by
  simp [StateCache.update, StateCache.get, h]

/-- Witness for C6 at a concrete populated cache. -/
theorem update_failure_preserves_snapshot_witness :
    (StateCache.update
        { status := some get_empty_status, meta := initMeta 60 }
        none "error" (some "boom") 10).status = some get_empty_status ∧
    (StateCache.update
        { status := some get_empty_status, meta := initMeta 60 }
        none "error" (some "boom") 10).get.1 = get_empty_status ∧
    (StateCache.update
        { status := some get_empty_status, meta := initMeta 60 }
        none "error" (some "boom") 10).meta.connected = false ∧
    (StateCache.update
        { status := some get_empty_status, meta := initMeta 60 }
        none "error" (some "boom") 10).meta.error = some "boom" :=
  update_failure_preserves_snapshot
    { status := some get_empty_status, meta := initMeta 60 }
    get_empty_status "error" "boom" 10 rfl

/-- C7: `ZoneTemperatureArgs` accepts exactly the argument combinations with
`45 ≤ heat ≤ 85`, `64 ≤ cool ≤ 99` and, when both are given,
`cool - heat ≥ 2`; in particular heat=71/cool=72 is rejected,
heat=72/cool=74 is accepted, and sample values below 45 (heat) or above 99
(cool) are rejected. -/
theorem zone_temperature_args_characterization (heat cool : Option Int) :
    (zone_temperature_args_valid heat cool = true ↔
      ((∀ h ∈ heat, 45 ≤ h ∧ h ≤ 85) ∧ (∀ c ∈ cool, 64 ≤ c ∧ c ≤ 99) ∧
        (∀ h ∈ heat, ∀ c ∈ cool, 2 ≤ c - h))) ∧
    zone_temperature_args_valid (some 71) (some 72) = false ∧
    zone_temperature_args_valid (some 72) (some 74) = true ∧
    zone_temperature_args_valid (some 44) (some 70) = false ∧
    zone_temperature_args_valid (some 70) (some 100) = false := by
  refine ⟨?_, by decide, by decide, by decide, by decide⟩
  cases heat <;> cases cool <;> simp [zone_temperature_args_valid]
  omega

/-- Witness for C7 at the claim's boundary pair. -/
theorem zone_temperature_args_characterization_witness :
    (zone_temperature_args_valid (some 72) (some 74) = true ↔
      ((∀ h ∈ (some 72 : Option Int), 45 ≤ h ∧ h ≤ 85) ∧
        (∀ c ∈ (some 74 : Option Int), 64 ≤ c ∧ c ≤ 99) ∧
        (∀ h ∈ (some 72 : Option Int), ∀ c ∈ (some 74 : Option Int),
          2 ≤ c - h))) ∧
    zone_temperature_args_valid (some 71) (some 72) = false ∧
    zone_temperature_args_valid (some 72) (some 74) = true ∧
    zone_temperature_args_valid (some 44) (some 70) = false ∧
    zone_temperature_args_valid (some 70) (some 100) = false :=
  zone_temperature_args_characterization (some 72) (some 74)

/-! ### Status decoding claims -/

theorem decode_time_fields_isSome (t_data : List Nat) :
    ∃ v, decode_time_fields t_data = some v := by
  unfold decode_time_fields
  by_cases h : t_data.length < 6
  · exact ⟨_, if_pos h⟩
  · rw [if_neg h]
    have h3 : 3 < t_data.length := by omega
    have h4 : 4 < t_data.length := by omega
    have h5 : 5 < t_data.length := by omega
    rw [List.get?_eq_get h3, List.get?_eq_get h4, List.get?_eq_get h5]
    exact ⟨_, rfl⟩

theorem propagate_isSome (zones : List ZoneStatus) (all_mode_source : Nat) :
    ∃ zs, propagate zones all_mode_source = some zs := by
  unfold propagate
  by_cases h : all_mode_source ≠ 0 ∧ 1 ≤ all_mode_source ∧
      all_mode_source ≤ zones.length
  · rw [if_pos h]
    have hidx : all_mode_source - 1 < zones.length := by omega
    rw [List.get?_eq_get hidx]
    exact ⟨_, rfl⟩
  · rw [if_neg h]
    exact ⟨_, rfl⟩

/-- The assembled record produced by `parse_status`, exposing the fields the
claims need. -/
theorem parse_status_eq (zone_count : Nat) (data : RowData)
    (raw_blob : Option String) :
    ∃ status, parse_status zone_count data raw_blob = some status ∧
      status.all_mode = decide (safe_get data.r1_12 15 0 ≠ 0) ∧
      propagate ((List.range zone_count).map (mkZone data))
        (safe_get data.r1_12 15 0) = some status.zones := by
  unfold parse_status
  obtain ⟨⟨day, hour, minute⟩, ht⟩ := decode_time_fields_isSome data.r1_18
  rw [ht]
  obtain ⟨zs, hp⟩ :=
    propagate_isSome ((List.range zone_count).map (mkZone data))
      (safe_get data.r1_12 15 0)
  dsimp only
  rw [hp]
  exact ⟨_, rfl, rfl, rfl⟩

/-- C10: the status decoder is total — for every collection of row data
(rows may be absent, empty or shorter than the offsets read) it produces a
`SystemStatus` rather than failing, every out-of-range access being absorbed
by the safe indexer's default 0 or an explicit guard. -/
theorem parse_status_total (zone_count : Nat) (data : RowData)
    (raw_blob : Option String) :
    (parse_status zone_count data raw_blob).isSome = true := by
  obtain ⟨status, hs, -, -⟩ := parse_status_eq zone_count data raw_blob
  rw [hs]
  rfl

theorem copyTemplate_zone_id (template zone : ZoneStatus) :
    (copyTemplate template zone).zone_id = zone.zone_id := rfl

theorem mkZone_zone_id (data : RowData) (i : Nat) :
    (mkZone data i).zone_id = i + 1 := rfl

/-- C8: all-mode propagation.  Let `src` be byte 15 of row 1.12.  Whenever
`1 ≤ src ≤ zone_count`, the decoded status has `all_mode = true`, its zone
list has one entry per configured zone, the zone at index `src - 1` is the
template (its `zone_id` is `src`), and every other zone carries the
template's cool setpoint, heat setpoint, temporary, hold and out values. -/
theorem parse_status_all_mode_propagation (zone_count : Nat) (data : RowData)
    (raw_blob : Option String)
    (h1 : 1 ≤ safe_get data.r1_12 15 0)
    (h2 : safe_get data.r1_12 15 0 ≤ zone_count) :
    ∃ status template,
      parse_status zone_count data raw_blob = some status ∧
      status.all_mode = true ∧
      status.zones.length = zone_count ∧
      status.zones.get? (safe_get data.r1_12 15 0 - 1) = some template ∧
      template.zone_id = safe_get data.r1_12 15 0 ∧
      ∀ zone ∈ status.zones, zone.zone_id ≠ safe_get data.r1_12 15 0 →
        zone.cool_setpoint = template.cool_setpoint ∧
        zone.heat_setpoint = template.heat_setpoint ∧
        zone.temporary = template.temporary ∧
        zone.hold = template.hold ∧
        zone.out = template.out := by
  obtain ⟨status, hs, hall, hprop⟩ := parse_status_eq zone_count data raw_blob
  set src := safe_get data.r1_12 15 0 with hsrc
  set zones0 := (List.range zone_count).map (mkZone data) with hz0
  have hlen0 : zones0.length = zone_count := by simp [hz0]
  have hidx : src - 1 < zones0.length := by omega
  have htemplate : zones0.get? (src - 1) = some (mkZone data (src - 1)) := by
    rw [hz0]
    rw [List.get?_map, List.get?_range (by simpa [hz0] using hidx)]
    rfl
  have hcond : src ≠ 0 ∧ 1 ≤ src ∧ src ≤ zones0.length := ⟨by omega, h1, by omega⟩
  have hprop2 : propagate zones0 src = some (zones0.map fun zone =>
      if zone.zone_id = (mkZone data (src - 1)).zone_id then zone
      else copyTemplate (mkZone data (src - 1)) zone) := by
    unfold propagate
    rw [if_pos hcond, htemplate]
  have hzones : status.zones = zones0.map fun zone =>
      if zone.zone_id = (mkZone data (src - 1)).zone_id then zone
      else copyTemplate (mkZone data (src - 1)) zone := by
    have := hprop.symm.trans hprop2
    exact Option.some.inj this
  have htid : (mkZone data (src - 1)).zone_id = src := by
    rw [mkZone_zone_id]
    omega
  refine ⟨status, mkZone data (src - 1), hs, ?_, ?_, ?_, htid, ?_⟩
  · rw [hall, hsrc]
    simp
    omega
  · rw [hzones]
    simp [hlen0]
  · rw [hzones, List.get?_map, htemplate]
    simp [htid]
  · intro zone hmem hne
    rw [hzones] at hmem
    obtain ⟨z0, hz0mem, hmap⟩ := List.mem_map.mp hmem
    by_cases hid : z0.zone_id = (mkZone data (src - 1)).zone_id
    · rw [if_pos hid] at hmap
      subst hmap
      rw [htid] at hid
      exact absurd hid hne
    · rw [if_neg hid] at hmap
      subst hmap
      exact ⟨rfl, rfl, rfl, rfl, rfl⟩

/-- Witness for C8: three zones, row 1.12 holding 2 at byte 15 (the spec's
scenario 6). -/
theorem parse_status_all_mode_propagation_witness :
    ∃ status template,
      parse_status 3
        ⟨[], [], [], [], [0, 0, 0, 0, 0, 0, 0, 0, 0, 0, 0, 0, 0, 0, 0, 2],
          [], [], [], []⟩ none = some status ∧
      status.all_mode = true ∧
      status.zones.length = 3 ∧
      status.zones.get? (safe_get [0, 0, 0, 0, 0, 0, 0, 0, 0, 0, 0, 0, 0, 0,
        0, 2] 15 0 - 1) = some template ∧
      template.zone_id = safe_get [0, 0, 0, 0, 0, 0, 0, 0, 0, 0, 0, 0, 0, 0,
        0, 2] 15 0 ∧
      ∀ zone ∈ status.zones, zone.zone_id ≠ safe_get [0, 0, 0, 0, 0, 0, 0, 0,
          0, 0, 0, 0, 0, 0, 0, 2] 15 0 →
        zone.cool_setpoint = template.cool_setpoint ∧
        zone.heat_setpoint = template.heat_setpoint ∧
        zone.temporary = template.temporary ∧
        zone.hold = template.hold ∧
        zone.out = template.out :=
  parse_status_all_mode_propagation 3
    ⟨[], [], [], [], [0, 0, 0, 0, 0, 0, 0, 0, 0, 0, 0, 0, 0, 0, 0, 2],
      [], [], [], []⟩ none (by decide) (by decide)

end Cz2
